import Mathlib

/-
Verification of mayors.py (usmayors.org scraper) against its design
specification.  The Python source is shallowly embedded below: pure string
manipulation is modelled by structural functions over character lists
(mirroring the semantics of the Python `str` methods actually used),
fallible code returns `Except PyErr`, and the `logging` calls are modelled
by an explicit list of (level, message) entries.
-/

namespace USMayors

/- ## Python string primitives

The Python code uses `str.split(sep)` (one-character separators only),
`str.strip()`, `str.replace(old, new)` with one-character `old` and an
empty or one-character `new`, and the substring operator `needle in hay`.
Each is modelled by a structurally recursive function over `List Char`
so that every definition evaluates inside the kernel. -/

/-- Does the first list occur as a prefix of the second? -/
def isPrefixCl : List Char → List Char → Bool
  | [], _ => true
  | _ :: _, [] => false
  | a :: as, b :: bs => a = b && isPrefixCl as bs

/-- Does `needle` occur as a contiguous sublist of `hay`?  This is the
semantics of the Python substring test `needle in hay`. -/
def isSubCl (needle : List Char) : List Char → Bool
  | [] => needle.isEmpty
  | b :: bs => isPrefixCl needle (b :: bs) || isSubCl needle bs

/-- Python `needle in hay` on strings (substring containment). -/
def strContains (hay needle : String) : Bool :=
  isSubCl needle.toList hay.toList

/-- Split a character list at every occurrence of the character `c`;
always returns at least one (possibly empty) segment, exactly like
Python `str.split(c)`. -/
def splitChar (c : Char) : List Char → List (List Char)
  | [] => [[]]
  | x :: xs =>
    match splitChar c xs, decide (x = c) with
    | r, true => [] :: r
    | h :: t, false => (x :: h) :: t
    | [], false => [[x]]

/-- Python `s.split(c)` for a one-character separator `c`. -/
def pySplitOn (s : String) (c : Char) : List String :=
  (splitChar c s.toList).map (fun l => String.mk l)

/-- Python `s.strip()`: remove leading and trailing whitespace. -/
def pyStrip (s : String) : String :=
  String.mk (((s.toList.dropWhile Char.isWhitespace).reverse.dropWhile
      Char.isWhitespace).reverse)

/-- Python `s.replace(c, "")` for a one-character pattern: drop every
occurrence of `c`. -/
def pyRemoveChar (c : Char) (s : String) : String :=
  String.mk (s.toList.filter (fun x => x ≠ c))

/- ## Data model -/

/-- The Python exceptions that the scraper can raise while parsing. -/
inductive PyErr where
  | indexError
  | typeError
  | keyError
  | attributeError
  | valueError
  deriving DecidableEq, Repr

/-- A value stored in a mayor record: either a Python string or Python
`None` (which `item.string` and `parse_phone` can produce). -/
inductive Val where
  | str (s : String)
  | pyNone
  deriving DecidableEq, Repr

/-- A mayor record is a Python dict with string keys, modelled as an
insertion-ordered association list. -/
abbrev Rec := List (String × Val)

/-- Python dict assignment `d[k] = v`: update in place if the key exists,
otherwise append at the end (Python dicts preserve insertion order). -/
def dictInsert : Rec → String → Val → Rec
  | [], k, v => [(k, v)]
  | (k', v') :: rest, k, v =>
    if k' = k then (k, v) :: rest else (k', v') :: dictInsert rest k v

/-- Logging levels used by the scraper. -/
inductive Level where
  | info
  | error
  deriving DecidableEq, Repr

abbrev LogEntry := Level × String

/-- A node of a mayor `ul` block after HTML parsing: either a bare text
node (BeautifulSoup `NavigableString`) or an element with a tag name, an
attribute list, and the optional single string child (`Tag.string`). -/
inductive Node where
  | txt (s : String)
  | el (tag : String) (attrs : List (String × String)) (str : Option String)
  deriving DecidableEq, Repr

/-- The fetched page, reduced to what `get_mayors_for_state` inspects:
the `div.post-content` region (if present), as the list of its `ul`
blocks, each a list of child nodes. -/
structure Page where
  postContent : Option (List (List Node))

/- ## Node operations (BeautifulSoup semantics) -/

/-- `item.name`: tag name of an element, `None` for a text node. -/
def nodeName : Node → Option String
  | .txt _ => none
  | .el tag _ _ => some tag

/-- `item.string`: the text itself for a text node, the optional single
string child for an element. -/
def nodeString : Node → Option String
  | .txt s => some s
  | .el _ _ st => st

/-- `item.get(key)`: attribute lookup returning `None` when absent
(only ever called on elements in the source). -/
def nodeGet : Node → String → Option String
  | .txt _, _ => none
  | .el _ attrs _, k => attrs.lookup k

/-- `item[key]`: subscripting.  On a `Tag` this is attribute access,
raising `KeyError` when the attribute is absent; on a `NavigableString`
(a Python `str`) a string index raises `TypeError`. -/
def pyGetItem : Node → String → Except PyErr String
  | .txt _, _ => .error .typeError
  | .el _ attrs _, k =>
    match attrs.lookup k with
    | some v => .ok v
    | none => .error .keyError

/-- `item.split(c)`: only `str` has `.split`; calling it on a `Tag`
raises `AttributeError`. -/
def pySplitNode : Node → Char → Except PyErr (List String)
  | .txt s, c => .ok (pySplitOn s c)
  | .el _ _ _, _ => .error .attributeError

/-- Python `needle in item`.  For a `NavigableString` this is substring
containment; for a `Tag` it is membership in `item.contents`, i.e. the
tag's single string child being exactly `needle`. -/
def pyContains (it : Node) (needle : String) : Bool :=
  match it with
  | .txt s => strContains s needle
  | .el _ _ st => st == some needle

/-- `l[i]` for a non-negative index: `IndexError` when out of range. -/
def listGet {α : Type} (l : List α) (i : Nat) : Except PyErr α :=
  match l.get? i with
  | some x => .ok x
  | none => .error .indexError

/-- `for br in mayor_ul.find_all('br'): br.decompose()` followed by
`items = mayor_ul.contents`: the `br` elements are deleted from the
block's child list. -/
def removeBrs (nodes : List Node) : List Node :=
  nodes.filter (fun n => !(nodeName n == some "br"))

/- ## Date handling: datetime.strptime(s, "%m/%d/%Y") and
strftime("%Y-%m-%d") -/

/-- Numeric value of a decimal digit character. -/
def digitVal (c : Char) : Nat := c.toNat - 48

/-- The `%m` directive: regex `1[0-2]|0[1-9]|[1-9]`, alternatives tried
left to right, returning the month and the remaining input. -/
def parseMonth : List Char → Option (Nat × List Char)
  | [] => none
  | c :: rest =>
    if c = '1' then
      match rest with
      | c2 :: rest2 =>
        if '0' ≤ c2 ∧ c2 ≤ '2' then some (10 + digitVal c2, rest2)
        else some (1, rest)
      | [] => some (1, [])
    else if c = '0' then
      match rest with
      | c2 :: rest2 =>
        if '1' ≤ c2 ∧ c2 ≤ '9' then some (digitVal c2, rest2) else none
      | [] => none
    else if '2' ≤ c ∧ c ≤ '9' then some (digitVal c, rest)
    else none

/-- The `%d` directive: regex `3[01]|[12]\d|0[1-9]|[1-9]`. -/
def parseDay : List Char → Option (Nat × List Char)
  | [] => none
  | c :: rest =>
    if c = '3' then
      match rest with
      | c2 :: rest2 =>
        if c2 = '0' ∨ c2 = '1' then some (30 + digitVal c2, rest2)
        else some (3, rest)
      | [] => some (3, [])
    else if c = '1' ∨ c = '2' then
      match rest with
      | c2 :: rest2 =>
        if c2.isDigit then some (10 * digitVal c + digitVal c2, rest2)
        else some (digitVal c, rest)
      | [] => some (digitVal c, [])
    else if c = '0' then
      match rest with
      | c2 :: rest2 =>
        if '1' ≤ c2 ∧ c2 ≤ '9' then some (digitVal c2, rest2) else none
      | [] => none
    else if '4' ≤ c ∧ c ≤ '9' then some (digitVal c, rest)
    else none

/-- The `%Y` directive: exactly four decimal digits. -/
def parseYear : List Char → Option (Nat × List Char)
  | a :: b :: c :: d :: rest =>
    if a.isDigit ∧ b.isDigit ∧ c.isDigit ∧ d.isDigit then
      some (1000 * digitVal a + 100 * digitVal b + 10 * digitVal c
        + digitVal d, rest)
    else none
  | _ => none

/-- Gregorian leap-year test used by `datetime`. -/
def isLeap (y : Nat) : Bool :=
  y % 4 = 0 && (y % 100 ≠ 0 || y % 400 = 0)

/-- Number of days in a month, as validated by the `datetime` constructor. -/
def daysInMonth (m y : Nat) : Nat :=
  if m = 2 then (if isLeap y then 29 else 28)
  else if m = 4 ∨ m = 6 ∨ m = 9 ∨ m = 11 then 30
  else 31

/-- `datetime.strptime(s, "%m/%d/%Y")`: match month, `/`, day, `/`, a
four-digit year, require the whole input to be consumed ("unconverted
data remains" otherwise), then validate the date via the `datetime`
constructor (year at least 1, day within the month).  Returns
`(month, day, year)` or `none` for a `ValueError`. -/
def strptimeMDY (s : String) : Option (Nat × Nat × Nat) :=
  match parseMonth s.toList with
  | some (m, '/' :: r1) =>
    match parseDay r1 with
    | some (d, '/' :: r2) =>
      match parseYear r2 with
      | some (y, []) =>
        if 1 ≤ y ∧ d ≤ daysInMonth m y then some (m, d, y) else none
      | _ => none
    | _ => none
  | _ => none

/-- Zero-pad the decimal rendering of `n` to width `w`. -/
def padNum (w n : Nat) : String :=
  String.mk (List.replicate (w - (toString n).length) '0') ++ toString n

/-- `parsed.strftime("%Y-%m-%d")`. -/
def strftimeYMD : Nat × Nat × Nat → String
  | (m, d, y) => padNum 4 y ++ "-" ++ padNum 2 m ++ "-" ++ padNum 2 d

/- ## parse_phone -/

/-- `parse_phone(p)`: when `p` is truthy (neither `None` nor the empty
string), delete `(` and `)` and turn every space into `-`; the chained
single-character `str.replace` calls are modelled by one character map. -/
def parse_phone : Option String → Option String
  | none => none
  | some p =>
    if p = "" then some p
    else some (String.mk (p.toList.filterMap (fun c =>
      if c = '(' ∨ c = ')' then none
      else if c = ' ' then some '-' else some c)))

/- ## Record extraction (get_mayors_for_state) -/

/-- The `try` block of `get_mayors_for_state`: build the common-fields
dict
`\x7b'img_url': items[1]['src'], 'name': items[2].string,
'city': items[3].split(',')[0].strip(),
'state': items[3].split(',')[1].strip()\x7d`,
with Python's left-to-right evaluation order of the dict literal
(indexing can raise `IndexError`; subscripting a text node raises
`TypeError`; a missing `src` attribute raises `KeyError`; `.split` on a
`Tag` raises `AttributeError`). -/
def commonFields (items : List Node) : Except PyErr Rec := do
  let n1 ← listGet items 1
  let img ← pyGetItem n1 "src"
  let n2 ← listGet items 2
  let nm := nodeString n2
  let n3 ← listGet items 3
  let parts0 ← pySplitNode n3 ','
  let c ← listGet parts0 0
  let parts1 ← pySplitNode n3 ','
  let st ← listGet parts1 1
  pure [("img_url", Val.str img),
        ("name", match nm with | some s => Val.str s | none => Val.pyNone),
        ("city", Val.str (pyStrip c)),
        ("state", Val.str (pyStrip st))]

/-- One iteration of the `for item in items` loop matching the remaining
fields by text prefix or link kind.  The three `if` statements of the
loop body run in order on the same item. -/
def scanItem (d : Rec) (it : Node) : Except PyErr Rec := do
  let d ← if pyContains it "Population" then do
      let parts ← pySplitNode it ':'
      let v ← listGet parts 1
      pure (dictInsert d "population" (Val.str (pyRemoveChar ',' v)))
    else pure d
  let d ← if pyContains it "Next Election Date" then do
      let parts ← pySplitNode it ':'
      let v ← listGet parts 1
      match strptimeMDY (pyStrip v) with
      | none => Except.error PyErr.valueError
      | some md =>
        pure (dictInsert d "next_election" (Val.str (strftimeYMD md)))
    else pure d
  if nodeName it == some "a" then
    if pyContains it "Web Site" then do
      let href ← pyGetItem it "href"
      pure (dictInsert d "city_site_url" (Val.str href))
    else if pyContains it "Bio" then do
      let href ← pyGetItem it "href"
      pure (dictInsert d "bio_url" (Val.str href))
    else
      match nodeGet it "href" with
      | none => Except.error PyErr.typeError
      | some hv =>
        if strContains hv "tel:" then
          pure (dictInsert d "phone"
            (match parse_phone (nodeString it) with
             | some s => Val.str s | none => Val.pyNone))
        else if strContains hv "mailto:" then
          pure (dictInsert d "email"
            (match nodeString it with
             | some s => Val.str s | none => Val.pyNone))
        else pure d
  else pure d

/-- The whole `for item in items` loop. -/
def scanItems : Rec → List Node → Except PyErr Rec
  | d, [] => .ok d
  | d, it :: rest =>
    match scanItem d it with
    | .error e => .error e
    | .ok d' => scanItems d' rest

/-- Process one `ul` block: strip `br` nodes, extract the common fields
(`except IndexError` logs at error level and skips the block; any other
exception propagates), then scan all items and append the record. -/
def processUl (acc : List Rec × List LogEntry) (ul : List Node) :
    Except PyErr (List Rec × List LogEntry) :=
  match commonFields (removeBrs ul) with
  | .error .indexError =>
    .ok (acc.1, acc.2 ++ [(Level.error, "unable to get common fields from")])
  | .error e => .error e
  | .ok d =>
    match scanItems d (removeBrs ul) with
    | .error e => .error e
    | .ok d' => .ok (acc.1 ++ [d'], acc.2)

/-- The `for mayor_ul in mayor_list` loop. -/
def processUls (acc : List Rec × List LogEntry) :
    List (List Node) → Except PyErr (List Rec × List LogEntry)
  | [] => .ok acc
  | ul :: rest =>
    match processUl acc ul with
    | .error e => .error e
    | .ok acc' => processUls acc' rest

/-- `get_mayors_for_state`, from the parsed page onwards (the network
fetch is outside the embedding).  `page.select_one('div.post-content')`
returning `None` makes the subsequent `content.find_all('ul')` raise
`AttributeError`; an empty `ul` list returns `[]` with an informational
log; otherwise every block is processed in source order. -/
def get_mayors_for_state (state : String) (page : Page) :
    Except PyErr (List Rec × List LogEntry) :=
  match page.postContent with
  | none => .error .attributeError
  | some uls =>
    if uls.isEmpty then
      .ok ([], [(Level.info, "no mayors found for " ++ state)])
    else
      processUls ([], [(Level.info,
        "found " ++ toString uls.length ++ " mayors for " ++ state)]) uls

/-- `get_mayors(states)`: concatenate the records of every state in the
given order (the Python generator, fully elaborated); the fetched page
for each state is supplied by `fetch`. -/
def get_mayors (states : List String) (fetch : String → Page) :
    Except PyErr (List Rec × List LogEntry) :=
  states.foldlM (fun acc st =>
    match get_mayors_for_state st (fetch st) with
    | .error e => .error e
    | .ok (rs, ls) => .ok (acc.1 ++ rs, acc.2 ++ ls)) ([], [])

/- ## CSV serializer -/

/-- Split a character list at every character satisfying `p`, keeping
the (possibly empty) segments between separators. -/
def splitWhen (p : Char → Bool) : List Char → List (List Char)
  | [] => [[]]
  | x :: xs =>
    match splitWhen p xs, p x with
    | r, true => [] :: r
    | h :: t, false => (x :: h) :: t
    | [], false => [[x]]

/-- `CSV_FIELDS`: the triple-quoted string of field names split on runs
of whitespace (Python `str.split()` with no argument drops the empty
segments). -/
def CSV_FIELDS : List String :=
  ((splitWhen (fun c => c = ' ' ∨ c = '\n')
    "\n    name email phone bio_url img_url city state population\n    city_site_url next_election".toList).map
      (fun l => String.mk l)).filter (fun s => s ≠ "")

/-- How `csv.DictWriter` renders one cell: a missing key falls back to
the `restval` (`None`), and the `csv` writer renders `None` — and a
stored Python `None` value — as the empty string. -/
def cellOf : Option Val → String
  | none => ""
  | some (Val.str s) => s
  | some Val.pyNone => ""

/-- `DictWriter.writerow`: raises `ValueError` when the dict contains a
key outside the field list, otherwise emits one cell per field. -/
def rowOf (m : Rec) : Except PyErr (List String) :=
  if m.all (fun kv => CSV_FIELDS.contains kv.1) then
    .ok (CSV_FIELDS.map (fun f => cellOf (m.lookup f)))
  else .error .valueError

/-- The `for mayor in mayors: w.writerow(mayor)` loop: emit each row in
turn, stopping at the first `ValueError`. -/
def rowsOf : List Rec → Except PyErr (List (List String))
  | [] => .ok []
  | m :: rest =>
    match rowOf m with
    | .error e => .error e
    | .ok r =>
      match rowsOf rest with
      | .error e => .error e
      | .ok rs => .ok (r :: rs)

/-- `write_to_csv`: header row of `CSV_FIELDS`, then one row per record
in arrival order.  The output is the list of rows of cells. -/
def write_to_csv (ms : List Rec) : Except PyErr (List (List String)) :=
  match rowsOf ms with
  | .error e => .error e
  | .ok rows => .ok (CSV_FIELDS :: rows)

/- ## JSON serializer (json.dump(list(mayors), out, indent=4)) -/

/-- JSON string escaping for the characters that can occur here. -/
def jsonEscChar (c : Char) : String :=
  if c = '"' then "\\" ++ "\""
  else if c = '\\' then "\\\\"
  else if c = '\n' then "\\n"
  else if c = '\t' then "\\t"
  else if c = '\r' then "\\r"
  else String.mk [c]

/-- Escape a whole string. -/
def jsonEsc (s : String) : String :=
  String.join (s.toList.map jsonEscChar)

/-- The token a dict key is rendered as. -/
def keyToken (k : String) : String := "\"" ++ jsonEsc k ++ "\""

/-- The token a value is rendered as: a quoted string, or `null` for a
Python `None`. -/
def valToken : Val → String
  | Val.str s => "\"" ++ jsonEsc s ++ "\""
  | Val.pyNone => "null"

/-- Tokens of one `key: value` line at indent 8 (list level and dict
level, 4 spaces each). -/
def entryTokens (kv : String × Val) : List String :=
  ["        ", keyToken kv.1, ": ", valToken kv.2]

/-- Dict entries joined by `,\n`, matching `json.dump` with `indent=4`. -/
def entriesTokens : Rec → List String
  | [] => []
  | [kv] => entryTokens kv
  | kv :: rest => entryTokens kv ++ [",\n"] ++ entriesTokens rest

/-- Tokens of one record object. -/
def recTokens (m : Rec) : List String :=
  match m with
  | [] => ["\x7b\x7d"]
  | _ => ["\x7b\n"] ++ entriesTokens m ++ ["\n    \x7d"]

/-- Record objects joined by `,\n`, each at indent 4. -/
def recsTokens : List Rec → List String
  | [] => []
  | [m] => "    " :: recTokens m
  | m :: rest => ("    " :: recTokens m) ++ [",\n"] ++ recsTokens rest

/-- The token stream of `json.dump(list(ms), indent=4)`. -/
def jsonTokens (ms : List Rec) : List String :=
  match ms with
  | [] => ["[]"]
  | _ => ["[\n"] ++ recsTokens ms ++ ["\n]"]

/-- `write_to_json`: the document text. -/
def write_to_json (ms : List Rec) : String :=
  String.join (jsonTokens ms)

/-- The tokens of the JSON document that do not come from a record
entry: brackets, braces, separators and indentation. -/
def structuralJsonTokens : List String :=
  ["[]", "[\n", "\n]", ",\n", "    ", "\x7b\x7d", "\x7b\n", "\n    \x7d",
   "        ", ": "]

/- ## Concrete synthetic blocks and pages used in the scenarios -/

/-- A well-formed mayor block (with a `br`, which is stripped). -/
def validBlock1 : List Node :=
  [Node.txt "\n", Node.el "img" [("src", "http://img1")] none,
   Node.txt "Mayor One", Node.txt "Springfield, Illinois",
   Node.el "br" [] none]

/-- A second well-formed mayor block. -/
def validBlock2 : List Node :=
  [Node.txt "\n", Node.el "img" [("src", "http://img2")] none,
   Node.txt "Mayor Three", Node.txt "Capital City, Illinois"]

/-- The record extracted from `validBlock1`. -/
def rec1 : Rec :=
  [("img_url", Val.str "http://img1"), ("name", Val.str "Mayor One"),
   ("city", Val.str "Springfield"), ("state", Val.str "Illinois")]

/-- The record extracted from `validBlock2`. -/
def rec2 : Rec :=
  [("img_url", Val.str "http://img2"), ("name", Val.str "Mayor Three"),
   ("city", Val.str "Capital City"), ("state", Val.str "Illinois")]

/-- A block whose photo node is missing while the name and city/state
nodes are still present. -/
def blockMissingPhoto : List Node :=
  [Node.txt "\n", Node.txt "Mayor Two", Node.txt "Shelbyville, Illinois"]

/-- A block truncated before the city/state node (fewer than the four
expected leading nodes, with the nodes that are present well-shaped). -/
def blockTruncated : List Node :=
  [Node.txt "\n", Node.el "img" [("src", "http://img9")] none,
   Node.txt "Mayor Two"]

/-- A well-formed block whose last node carries the given
`Next Election Date` text. -/
def blockElect (s : String) : List Node :=
  [Node.txt "\n", Node.el "img" [("src", "http://img")] none,
   Node.txt "Mayor Four", Node.txt "Ogdenville, Illinois", Node.txt s]

/-- A well-formed block ending in a hyperlink that has no `href`
attribute and carries the given text. -/
def blockAnchor (t : String) : List Node :=
  [Node.txt "\n", Node.el "img" [("src", "http://img")] none,
   Node.txt "Mayor Five", Node.txt "North Haverbrook, Illinois",
   Node.el "a" [] (some t)]

/- ## Helper lemmas -/

theorem ok_bind {α β : Type} (a : α) (f : α → Except PyErr β) :
    (Except.ok a >>= f) = f a := rfl

theorem err_bind {α β : Type} (e : PyErr) (f : α → Except PyErr β) :
    (Except.error e >>= f) = Except.error e := rfl

theorem pure_eq_ok {α : Type} (a : α) :
    (pure a : Except PyErr α) = Except.ok a := rfl

/- ## Claim theorems -/

/-- Claim C1, counterexample.  The spec's synthetic scenario fails on the
code: on a page with two valid mayor blocks around one block that is
missing its photo node (its name and city/state nodes still present),
`items[1]['src']` subscripts a text node, which raises a `TypeError`
that the `except IndexError` clause does not catch — extraction aborts
instead of skipping the malformed block and yielding two records. -/
theorem get_mayors_for_state_missing_photo_raises :
    get_mayors_for_state "Illinois"
      ⟨some [validBlock1, blockMissingPhoto, validBlock2]⟩
      = Except.error PyErr.typeError := rfl

/-- Claim C1, amended.  A malformed block is skipped — logged at error
level, no exception, extraction continuing with the remaining blocks —
exactly when the leading-field extraction raises `IndexError`, i.e. when
the block is truncated before one of the indexed positions and the
leading nodes that are present still have the expected shapes (here: a
block cut off before its city/state node).  Such a page with two valid
blocks and one truncated block yields exactly the two valid records in
source order plus one error-level log entry. -/
theorem get_mayors_for_state_truncated_block_skipped :
    get_mayors_for_state "Illinois"
      ⟨some [validBlock1, blockTruncated, validBlock2]⟩
      = Except.ok ([rec1, rec2],
          [(Level.info, "found 3 mayors for Illinois"),
           (Level.error, "unable to get common fields from")]) := rfl

/-- Claim C2, counterexample.  A fetched page on which the primary
content region (`div.post-content`) is missing does not produce an empty
sequence: `page.select_one` returns `None` and the subsequent
`content.find_all('ul')` raises an `AttributeError`, so extraction for
that state aborts instead of returning `[]`. -/
theorem get_mayors_for_state_no_region_raises :
    get_mayors_for_state "Ohio" ⟨none⟩
      = Except.error PyErr.attributeError := rfl

/-- Claim C2, amended.  When the content region is present but contains
no mayor lists, extraction returns the empty sequence — not an error —
with one informational log entry, and a whole run over just that state
also succeeds (exits zero); a page missing the content region instead
raises an `AttributeError`. -/
theorem get_mayors_for_state_empty_region (st : String) :
    get_mayors_for_state st ⟨some []⟩
      = Except.ok ([], [(Level.info, "no mayors found for " ++ st)])
    ∧ get_mayors [st] (fun _ => ⟨some []⟩)
      = Except.ok ([], [(Level.info, "no mayors found for " ++ st)]) :=
  ⟨rfl, rfl⟩

/-- Claim C4.  For every city/state node whose text has the form
`City, State` (exactly one comma), the common-field extraction splits at
that comma and populates `city` and `state`, trimming surrounding
whitespace from each side. -/
theorem commonFields_city_state_split (img nm cs c st : String)
    (h : pySplitOn cs ',' = [c, st]) :
    commonFields [Node.txt "\n", Node.el "img" [("src", img)] none,
      Node.txt nm, Node.txt cs]
      = Except.ok [("img_url", Val.str img), ("name", Val.str nm),
          ("city", Val.str (pyStrip c)), ("state", Val.str (pyStrip st))] := by
  simp only [commonFields, listGet, pyGetItem, pySplitNode, nodeString,
    List.get?, List.lookup, ok_bind, pure_eq_ok, h]
  rfl

/-- Claim C4, witness: the input text `Springfield, Illinois` yields
city `Springfield` and state `Illinois`. -/
theorem commonFields_city_state_split_witness :
    commonFields [Node.txt "\n", Node.el "img" [("src", "http://img")] none,
      Node.txt "Mayor", Node.txt "Springfield, Illinois"]
      = Except.ok [("img_url", Val.str "http://img"),
          ("name", Val.str "Mayor"), ("city", Val.str "Springfield"),
          ("state", Val.str "Illinois")] :=
  commonFields_city_state_split "http://img" "Mayor" "Springfield, Illinois"
    "Springfield" " Illinois" (by decide)

/-- Claim C5.  Phone normalization removes parentheses and turns spaces
into hyphens: no parenthesis or space character survives in any
normalized phone value, and the input `(555) 123-4567` is stored as
`555-123-4567`. -/
theorem parse_phone_normalizes :
    (∀ s t, parse_phone (some s) = some t →
      ∀ c, c ∈ t.toList → c ≠ '(' ∧ c ≠ ')' ∧ c ≠ ' ')
    ∧ parse_phone (some "(555) 123-4567") = some "555-123-4567" := by
  constructor
  · intro s t ht c hc
    by_cases hs : s = ""
    · subst hs
      simp [parse_phone] at ht
      subst ht
      simp at hc
    · simp [parse_phone, hs] at ht
      subst ht
      simp only [String.toList] at hc
      obtain ⟨a, _, hfa⟩ := List.mem_filterMap.mp hc
      split_ifs at hfa with h1 h2 <;> simp only [Option.some.injEq] at hfa
      · subst hfa
        decide
      · subst hfa
        push_neg at h1
        exact ⟨h1.1, h1.2, h2⟩
  · decide

/-- Claim C5, witness: the concrete normalization together with the
absence of parentheses and spaces, instantiated at its first character. -/
theorem parse_phone_normalizes_witness :
    ('5' ≠ '(' ∧ '5' ≠ ')' ∧ '5' ≠ ' ')
    ∧ parse_phone (some "(555) 123-4567") = some "555-123-4567" :=
  ⟨parse_phone_normalizes.1 "(555) 123-4567" "555-123-4567"
      parse_phone_normalizes.2 '5' (by decide),
   parse_phone_normalizes.2⟩

/-- Claim C6.  For a node whose text contains `Next Election Date` and
has exactly one colon, the text after that colon is trimmed, parsed as
`MM/DD/YYYY`, and stored in the record under `next_election` rendered as
`YYYY-MM-DD` (via `strftimeYMD`). -/
theorem scanItem_next_election (d : Rec) (s pre v : String)
    (hpop : strContains s "Population" = false)
    (hne : strContains s "Next Election Date" = true)
    (hsplit : pySplitOn s ':' = [pre, v])
    (md : Nat × Nat × Nat)
    (hparse : strptimeMDY (pyStrip v) = some md) :
    scanItem d (Node.txt s)
      = Except.ok (dictInsert d "next_election"
          (Val.str (strftimeYMD md))) := by
  simp only [scanItem, pyContains, hpop, hne, pySplitNode, listGet, hsplit,
    List.get?, hparse, ok_bind, pure_eq_ok, nodeName]
  simp

/-- Claim C6, witness: the input `11/5/2024` is stored as `2024-11-05`. -/
theorem scanItem_next_election_witness :
    scanItem [] (Node.txt "Next Election Date: 11/5/2024")
      = Except.ok [("next_election", Val.str "2024-11-05")] :=
  scanItem_next_election [] "Next Election Date: 11/5/2024"
    "Next Election Date" " 11/5/2024" (by decide) (by decide) (by decide)
    (11, 5, 2024) (by decide)

/-- Helper for claim C3: scanning an item whose text contains
`Next Election Date` with an unparseable date raises `ValueError`,
whether or not the text also matches the `Population` branch. -/
theorem scanItem_elect_fail (d : Rec) (s pre v : String)
    (hne : strContains s "Next Election Date" = true)
    (hsplit : pySplitOn s ':' = [pre, v])
    (hfail : strptimeMDY (pyStrip v) = none) :
    scanItem d (Node.txt s) = Except.error PyErr.valueError := by
  simp only [scanItem, pyContains, hne, pySplitNode, listGet, hsplit,
    List.get?, hfail, ok_bind, pure_eq_ok]
  cases hp : strContains s "Population" <;> simp [hp, err_bind]

/-- Claim C3.  A mayor list containing a node whose text reads
`Next Election Date: <date>` with a date that does not parse as
`MM/DD/YYYY` makes the whole extraction fail with the uncaught
`ValueError` — the following valid block is never reached, and a run
over that state aborts entirely. -/
theorem get_mayors_for_state_bad_date_fatal (st s pre v : String)
    (hne : strContains s "Next Election Date" = true)
    (hsplit : pySplitOn s ':' = [pre, v])
    (hfail : strptimeMDY (pyStrip v) = none) :
    get_mayors_for_state st ⟨some [blockElect s, validBlock2]⟩
      = Except.error PyErr.valueError
    ∧ get_mayors [st] (fun _ => ⟨some [blockElect s, validBlock2]⟩)
      = Except.error PyErr.valueError := by
  have h2 : commonFields (removeBrs (blockElect s)) = Except.ok
      [("img_url", Val.str "http://img"), ("name", Val.str "Mayor Four"),
       ("city", Val.str "Ogdenville"), ("state", Val.str "Illinois")] := rfl
  have h3 : scanItems
      [("img_url", Val.str "http://img"), ("name", Val.str "Mayor Four"),
       ("city", Val.str "Ogdenville"), ("state", Val.str "Illinois")]
      (removeBrs (blockElect s))
      = scanItems
      [("img_url", Val.str "http://img"), ("name", Val.str "Mayor Four"),
       ("city", Val.str "Ogdenville"), ("state", Val.str "Illinois")]
      [Node.txt s] := rfl
  have h4 := scanItem_elect_fail
      [("img_url", Val.str "http://img"), ("name", Val.str "Mayor Four"),
       ("city", Val.str "Ogdenville"), ("state", Val.str "Illinois")]
      s pre v hne hsplit hfail
  have h5 : scanItems
      [("img_url", Val.str "http://img"), ("name", Val.str "Mayor Four"),
       ("city", Val.str "Ogdenville"), ("state", Val.str "Illinois")]
      [Node.txt s] = Except.error PyErr.valueError := by
    simp [scanItems, h4]
  have h6 : processUl ([], [(Level.info,
        "found " ++ toString ([blockElect s, validBlock2].length)
          ++ " mayors for " ++ st)]) (blockElect s)
      = Except.error PyErr.valueError := by
    simp only [processUl, h2, h3, h5]
  have h7 : get_mayors_for_state st ⟨some [blockElect s, validBlock2]⟩
      = Except.error PyErr.valueError := by
    simp only [get_mayors_for_state, List.isEmpty, processUls]
    rw [h6]
    simp
  refine ⟨h7, ?_⟩
  simp [get_mayors, List.foldlM, h7]

/-- Claim C3, witness: the date `13/40/2024` does not parse, and the
run over the page aborts with a `ValueError`. -/
theorem get_mayors_for_state_bad_date_fatal_witness :
    strptimeMDY (pyStrip " 13/40/2024") = none
    ∧ get_mayors_for_state "Zeta"
        ⟨some [blockElect "Next Election Date: 13/40/2024", validBlock2]⟩
        = Except.error PyErr.valueError :=
  ⟨by decide,
   (get_mayors_for_state_bad_date_fatal "Zeta"
      "Next Election Date: 13/40/2024" "Next Election Date" " 13/40/2024"
      (by decide) (by decide) (by decide)).1⟩

/-- Helper for claim C9: the loop body on an `a` element with no `href`
whose string child matches none of the keyword tests evaluates
`'tel:' in item.get('href')` on `None` and raises `TypeError`. -/
theorem scanItem_anchor_no_href (d : Rec) (t : String)
    (hw : t ≠ "Web Site") (hb : t ≠ "Bio")
    (hp : t ≠ "Population") (hq : t ≠ "Next Election Date") :
    scanItem d (Node.el "a" [] (some t)) = Except.error PyErr.typeError := by
  simp [scanItem, pyContains, nodeName, nodeGet, hp, hq, hw, hb,
    ok_bind, pure_eq_ok]

/-- Helper for claim C9: a page whose second block ends in such an
anchor makes the whole extraction raise `TypeError`. -/
theorem anchor_page_typeError (st t : String)
    (hw : t ≠ "Web Site") (hb : t ≠ "Bio")
    (hp : t ≠ "Population") (hq : t ≠ "Next Election Date") :
    get_mayors_for_state st ⟨some [validBlock1, blockAnchor t]⟩
      = Except.error PyErr.typeError := by
  have hA : ∀ acc : List Rec × List LogEntry,
      processUl acc validBlock1 = Except.ok (acc.1 ++ [rec1], acc.2) :=
    fun acc => rfl
  have h3 : scanItems
      [("img_url", Val.str "http://img"), ("name", Val.str "Mayor Five"),
       ("city", Val.str "North Haverbrook"), ("state", Val.str "Illinois")]
      (removeBrs (blockAnchor t))
      = scanItems
      [("img_url", Val.str "http://img"), ("name", Val.str "Mayor Five"),
       ("city", Val.str "North Haverbrook"), ("state", Val.str "Illinois")]
      [Node.el "a" [] (some t)] := rfl
  have h4 := scanItem_anchor_no_href
      [("img_url", Val.str "http://img"), ("name", Val.str "Mayor Five"),
       ("city", Val.str "North Haverbrook"), ("state", Val.str "Illinois")]
      t hw hb hp hq
  have h5 : scanItems
      [("img_url", Val.str "http://img"), ("name", Val.str "Mayor Five"),
       ("city", Val.str "North Haverbrook"), ("state", Val.str "Illinois")]
      [Node.el "a" [] (some t)] = Except.error PyErr.typeError := by
    simp [scanItems, h4]
  have hB : ∀ acc : List Rec × List LogEntry,
      processUl acc (blockAnchor t) = Except.error PyErr.typeError := by
    intro acc
    have h2 : commonFields (removeBrs (blockAnchor t)) = Except.ok
        [("img_url", Val.str "http://img"), ("name", Val.str "Mayor Five"),
         ("city", Val.str "North Haverbrook"),
         ("state", Val.str "Illinois")] := rfl
    simp only [processUl, h2, h3, h5]
  simp only [get_mayors_for_state, List.isEmpty, processUls, hA, hB]
  simp

/-- Claim C9.  A mayor list containing a hyperlink node with no `href`
attribute whose text contains neither `Web Site` nor `Bio` makes
extraction raise an uncaught error that aborts the entire run rather
than skipping the node or the record; when the anchor's text is not
exactly one of the two other keyword strings, the error is the
`TypeError` from the membership test `'tel:' in item.get('href')` on
`None` (for the texts `Population` and `Next Election Date` the abort
comes one line earlier, from `.split` on a tag). -/
theorem get_mayors_for_state_anchor_without_href (st t : String)
    (h1 : strContains t "Web Site" = false)
    (h2 : strContains t "Bio" = false) :
    (∃ e, get_mayors_for_state st ⟨some [validBlock1, blockAnchor t]⟩
       = Except.error e)
    ∧ (t ≠ "Population" → t ≠ "Next Election Date" →
       get_mayors_for_state st ⟨some [validBlock1, blockAnchor t]⟩
         = Except.error PyErr.typeError) := by
  have hw : t ≠ "Web Site" := by
    intro he
    rw [he] at h1
    exact absurd h1 (by decide)
  have hb : t ≠ "Bio" := by
    intro he
    rw [he] at h2
    exact absurd h2 (by decide)
  constructor
  · by_cases hp : t = "Population"
    · subst hp
      exact ⟨PyErr.attributeError, rfl⟩
    · by_cases hq : t = "Next Election Date"
      · subst hq
        exact ⟨PyErr.attributeError, rfl⟩
      · exact ⟨PyErr.typeError, anchor_page_typeError st t hw hb hp hq⟩
  · intro hp hq
    exact anchor_page_typeError st t hw hb hp hq

/-- Claim C9, witness: an anchor with text `Contact` and no target makes
the run abort with a `TypeError`. -/
theorem get_mayors_for_state_anchor_without_href_witness :
    strContains "Contact" "Web Site" = false
    ∧ get_mayors_for_state "Zeta"
        ⟨some [validBlock1, blockAnchor "Contact"]⟩
        = Except.error PyErr.typeError :=
  ⟨by decide,
   (get_mayors_for_state_anchor_without_href "Zeta" "Contact"
      (by decide) (by decide)).2 (by decide) (by decide)⟩

/-- Helper for claim C7: when every key of every record is a CSV field
name, the row loop emits one row per record in order, each cell holding
the stored value or the empty string for an absent field. -/
theorem rowsOf_ok (ms : List Rec)
    (h : ∀ m ∈ ms, ∀ kv ∈ m, CSV_FIELDS.contains kv.1 = true) :
    rowsOf ms = Except.ok
      (ms.map (fun m => CSV_FIELDS.map (fun f => cellOf (m.lookup f)))) := by
  induction ms with
  | nil => rfl
  | cons m rest ih =>
    have hall : m.all (fun kv => CSV_FIELDS.contains kv.1) = true := by
      rw [List.all_eq_true]
      intro kv hkv
      exact h m (by simp) kv hkv
    have hm : rowOf m
        = Except.ok (CSV_FIELDS.map (fun f => cellOf (m.lookup f))) := by
      unfold rowOf
      rw [if_pos hall]
    have ih' := ih (fun m' hm' kv hkv => h m' (by simp [hm']) kv hkv)
    simp [rowsOf, hm, ih']

/-- Claim C7.  For every sequence of mayor records (records whose keys
are CSV field names), the CSV serializer writes a header row with
exactly the ten field names in order, then one row per record in arrival
order, with fields absent on a record written as empty cells
(`cellOf none = ""`). -/
theorem write_to_csv_header_and_rows (ms : List Rec)
    (h : ∀ m ∈ ms, ∀ kv ∈ m, CSV_FIELDS.contains kv.1 = true) :
    write_to_csv ms = Except.ok
      (["name", "email", "phone", "bio_url", "img_url", "city", "state",
        "population", "city_site_url", "next_election"]
        :: ms.map (fun m =>
          ["name", "email", "phone", "bio_url", "img_url", "city", "state",
           "population", "city_site_url", "next_election"].map
            (fun f => cellOf (m.lookup f)))) := by
  have hf : CSV_FIELDS = ["name", "email", "phone", "bio_url", "img_url",
      "city", "state", "population", "city_site_url", "next_election"] := rfl
  rw [← hf]
  simp [write_to_csv, rowsOf_ok ms h]

/-- Claim C7, witness: a single record with only `name` and `population`
gives the header plus one row with the other eight cells empty. -/
theorem write_to_csv_header_and_rows_witness :
    (∀ m ∈ [[("name", Val.str "A"), ("population", Val.str "7")]],
      ∀ kv ∈ m, CSV_FIELDS.contains kv.1 = true)
    ∧ write_to_csv [[("name", Val.str "A"), ("population", Val.str "7")]]
      = Except.ok
        [["name", "email", "phone", "bio_url", "img_url", "city", "state",
          "population", "city_site_url", "next_election"],
         ["A", "", "", "", "", "", "", "7", "", ""]] :=
  ⟨by decide,
   write_to_csv_header_and_rows
    [[("name", Val.str "A"), ("population", Val.str "7")]] (by decide)⟩

/-- Helper for claim C8: a quoted string token is never the token `null`. -/
theorem quote_ne_null (x : String) : "\"" ++ x ++ "\"" ≠ "null" := by
  intro h
  have hd := congrArg String.data h
  simp only [String.data_append] at hd
  simp at hd

/-- Helper for claim C8: a quoted string token is never the token `None`. -/
theorem quote_ne_none (x : String) : "\"" ++ x ++ "\"" ≠ "None" := by
  intro h
  have hd := congrArg String.data h
  simp only [String.data_append] at hd
  simp at hd

/-- Helper for claim C8: every token of a rendered record body is
indentation, punctuation, or a key or value token of one of its entries. -/
theorem mem_entriesTokens {t : String} :
    ∀ m : Rec, t ∈ entriesTokens m →
      t = "        " ∨ t = ": " ∨ t = ",\n"
      ∨ ∃ kv ∈ m, t = keyToken kv.1 ∨ t = valToken kv.2
  | [], h => by simp [entriesTokens] at h
  | [kv], h => by
    simp only [entriesTokens, entryTokens, List.mem_cons,
      List.not_mem_nil, or_false] at h
    rcases h with h | h | h | h
    · exact Or.inl h
    · exact Or.inr (Or.inr (Or.inr ⟨kv, by simp, Or.inl h⟩))
    · exact Or.inr (Or.inl h)
    · exact Or.inr (Or.inr (Or.inr ⟨kv, by simp, Or.inr h⟩))
  | kv :: kv2 :: r2, h => by
    have h' : t ∈ entryTokens kv ++ ([",\n"] ++ entriesTokens (kv2 :: r2)) := h
    rcases List.mem_append.mp h' with h1 | h1
    · simp only [entryTokens, List.mem_cons, List.not_mem_nil, or_false] at h1
      rcases h1 with h1 | h1 | h1 | h1
      · exact Or.inl h1
      · exact Or.inr (Or.inr (Or.inr ⟨kv, by simp, Or.inl h1⟩))
      · exact Or.inr (Or.inl h1)
      · exact Or.inr (Or.inr (Or.inr ⟨kv, by simp, Or.inr h1⟩))
    · rcases List.mem_append.mp h1 with h2 | h2
      · rw [List.mem_singleton] at h2
        exact Or.inr (Or.inr (Or.inl h2))
      · rcases mem_entriesTokens (kv2 :: r2) h2 with h3 | h3 | h3 | ⟨kv', hkv', h3⟩
        · exact Or.inl h3
        · exact Or.inr (Or.inl h3)
        · exact Or.inr (Or.inr (Or.inl h3))
        · exact Or.inr (Or.inr (Or.inr ⟨kv', List.mem_cons_of_mem kv hkv', h3⟩))

/-- Helper for claim C8: every token of a rendered record object is
structural or a key or value token of one of its entries. -/
theorem mem_recTokens {t : String} (m : Rec) (h : t ∈ recTokens m) :
    t ∈ structuralJsonTokens
    ∨ ∃ kv ∈ m, t = keyToken kv.1 ∨ t = valToken kv.2 := by
  match m with
  | [] =>
    simp only [recTokens, List.mem_singleton] at h
    subst h
    exact Or.inl (by decide)
  | kv :: rest =>
    have h' : t ∈ ["\x7b\n"] ++ (entriesTokens (kv :: rest) ++ ["\n    \x7d"]) := h
    rcases List.mem_append.mp h' with h1 | h1
    · rw [List.mem_singleton] at h1
      subst h1
      exact Or.inl (by decide)
    · rcases List.mem_append.mp h1 with h2 | h2
      · rcases mem_entriesTokens (kv :: rest) h2 with h3 | h3 | h3 | ⟨kv', hkv', h3⟩
        · subst h3; exact Or.inl (by decide)
        · subst h3; exact Or.inl (by decide)
        · subst h3; exact Or.inl (by decide)
        · exact Or.inr ⟨kv', hkv', h3⟩
      · rw [List.mem_singleton] at h2
        subst h2
        exact Or.inl (by decide)

/-- Helper for claim C8: every token of the rendered record list is
structural or a key or value token of an entry of one of the records. -/
theorem mem_recsTokens {t : String} :
    ∀ ms : List Rec, t ∈ recsTokens ms →
      t ∈ structuralJsonTokens
      ∨ ∃ m ∈ ms, ∃ kv ∈ m, t = keyToken kv.1 ∨ t = valToken kv.2
  | [], h => by simp [recsTokens] at h
  | [m], h => by
    have h' : t ∈ "    " :: recTokens m := h
    rcases List.mem_cons.mp h' with h1 | h1
    · subst h1; exact Or.inl (by decide)
    · rcases mem_recTokens m h1 with h2 | ⟨kv, hkv, h2⟩
      · exact Or.inl h2
      · exact Or.inr ⟨m, by simp, kv, hkv, h2⟩
  | m :: m2 :: r2, h => by
    have h' : t ∈ (("    " :: recTokens m) ++ [",\n"]) ++ recsTokens (m2 :: r2) := h
    rcases List.mem_append.mp h' with h1 | h1
    · rcases List.mem_append.mp h1 with h2 | h2
      · rcases List.mem_cons.mp h2 with h3 | h3
        · subst h3; exact Or.inl (by decide)
        · rcases mem_recTokens m h3 with h4 | ⟨kv, hkv, h4⟩
          · exact Or.inl h4
          · exact Or.inr ⟨m, by simp, kv, hkv, h4⟩
      · rw [List.mem_singleton] at h2
        subst h2
        exact Or.inl (by decide)
    · rcases mem_recsTokens (m2 :: r2) h1 with h3 | ⟨m', hm', kv, hkv, h3⟩
      · exact Or.inl h3
      · exact Or.inr ⟨m', List.mem_cons_of_mem m hm', kv, hkv, h3⟩

/-- Helper for claim C8: every token of the whole document is structural
or a key or value token of an entry of one of the records. -/
theorem mem_jsonTokens {t : String} (ms : List Rec)
    (h : t ∈ jsonTokens ms) :
    t ∈ structuralJsonTokens
    ∨ ∃ m ∈ ms, ∃ kv ∈ m, t = keyToken kv.1 ∨ t = valToken kv.2 := by
  match ms with
  | [] =>
    simp only [jsonTokens, List.mem_singleton] at h
    subst h
    exact Or.inl (by decide)
  | m :: rest =>
    have h' : t ∈ ["[\n"] ++ (recsTokens (m :: rest) ++ ["\n]"]) := h
    rcases List.mem_append.mp h' with h1 | h1
    · rw [List.mem_singleton] at h1
      subst h1
      exact Or.inl (by decide)
    · rcases List.mem_append.mp h1 with h2 | h2
      · rcases mem_recsTokens (m :: rest) h2 with h3 | h3
        · exact Or.inl h3
        · exact Or.inr h3
      · rw [List.mem_singleton] at h2
        subst h2
        exact Or.inl (by decide)


/-- Helper for claim C8: every present field contributes its key token. -/
theorem keyToken_mem_entriesTokens {kv : String × Val} :
    ∀ m : Rec, kv ∈ m → keyToken kv.1 ∈ entriesTokens m
  | [], h => absurd h (List.not_mem_nil kv)
  | [kv2], h => by
    rcases List.mem_singleton.mp h with rfl
    simp [entriesTokens, entryTokens]
  | kv2 :: kv3 :: r2, h => by
    rcases List.mem_cons.mp h with he | h2
    · subst he
      have : keyToken kv.1 ∈ entryTokens kv := by simp [entryTokens]
      exact List.mem_append.mpr (Or.inl (List.mem_append.mpr (Or.inl this)))
    · have ih := keyToken_mem_entriesTokens (kv3 :: r2) h2
      exact List.mem_append.mpr (Or.inr ih)

/-- Helper for claim C8: record-body tokens appear in the record object. -/
theorem tok_in_recTokens {t : String} (a : String × Val) (r : Rec)
    (h : t ∈ entriesTokens (a :: r)) : t ∈ recTokens (a :: r) := by
  show t ∈ ["\x7b\n"] ++ (entriesTokens (a :: r) ++ ["\n    \x7d"])
  exact List.mem_append.mpr (Or.inr (List.mem_append.mpr (Or.inl h)))

/-- Helper for claim C8: record-object tokens appear in the record list. -/
theorem tok_in_recsTokens {t : String} :
    ∀ (ms : List Rec) (m : Rec), m ∈ ms → t ∈ recTokens m → t ∈ recsTokens ms
  | [], m, hm, _ => absurd hm (List.not_mem_nil m)
  | [m2], m, hm, ht => by
    rcases List.mem_singleton.mp hm with rfl
    exact List.mem_cons_of_mem _ ht
  | m2 :: m3 :: r2, m, hm, ht => by
    rcases List.mem_cons.mp hm with he | h2
    · subst he
      have h1 : t ∈ ("    " :: recTokens m) ++ [",\n"] :=
        List.mem_append.mpr (Or.inl (List.mem_cons_of_mem _ ht))
      exact List.mem_append.mpr (Or.inl h1)
    · have ih := tok_in_recsTokens (m3 :: r2) m h2 ht
      exact List.mem_append.mpr (Or.inr ih)

/-- Helper for claim C8: record-list tokens appear in the document. -/
theorem tok_in_jsonTokens {t : String} (ms : List Rec) (m : Rec)
    (hm : m ∈ ms) (ht : t ∈ recTokens m) : t ∈ jsonTokens ms := by
  match ms with
  | [] => exact absurd hm (List.not_mem_nil m)
  | m2 :: rest =>
    have h1 := tok_in_recsTokens (m2 :: rest) m hm ht
    show t ∈ ["[\n"] ++ (recsTokens (m2 :: rest) ++ ["\n]"])
    exact List.mem_append.mpr (Or.inr (List.mem_append.mpr (Or.inl h1)))

/-- Claim C8.  The JSON serializer renders the materialized record list
in order; for string-valued records the emitted token stream contains no
`null` and no `None` token, every present field contributes its quoted
key token, and every token is either structural (brackets, braces,
indentation, separators) or the quoted key or value token of a field
present on some record — so absent fields contribute nothing at all. -/
theorem write_to_json_ordered_no_null (ms : List Rec)
    (h : ∀ m ∈ ms, ∀ kv ∈ m, kv.2 ≠ Val.pyNone) :
    ("null" ∉ jsonTokens ms ∧ "None" ∉ jsonTokens ms)
    ∧ (∀ m ∈ ms, ∀ kv ∈ m, keyToken kv.1 ∈ jsonTokens ms)
    ∧ (∀ t ∈ jsonTokens ms, t ∈ structuralJsonTokens
        ∨ ∃ m ∈ ms, ∃ kv ∈ m, t = keyToken kv.1 ∨ t = valToken kv.2) := by
  refine ⟨⟨?_, ?_⟩, ?_, fun t ht => mem_jsonTokens ms ht⟩
  · intro hmem
    rcases mem_jsonTokens ms hmem with hs | ⟨m, hm, kv, hkv, he | he⟩
    · exact absurd hs (by decide)
    · exact quote_ne_null (jsonEsc kv.1) he.symm
    · match hv : kv.2 with
      | Val.str s =>
        rw [hv] at he
        exact quote_ne_null (jsonEsc s) he.symm
      | Val.pyNone => exact h m hm kv hkv hv
  · intro hmem
    rcases mem_jsonTokens ms hmem with hs | ⟨m, hm, kv, hkv, he | he⟩
    · exact absurd hs (by decide)
    · exact quote_ne_none (jsonEsc kv.1) he.symm
    · match hv : kv.2 with
      | Val.str s =>
        rw [hv] at he
        exact quote_ne_none (jsonEsc s) he.symm
      | Val.pyNone =>
        rw [hv] at he
        exact absurd he (by decide)
  · intro m hm kv hkv
    match m, hkv with
    | a :: r, hkv =>
      exact tok_in_jsonTokens ms (a :: r) hm
        (tok_in_recTokens a r (keyToken_mem_entriesTokens (a :: r) hkv))

/-- Claim C8, witness: two string-valued records produce a document with
no `null` and no `None` token. -/
theorem write_to_json_ordered_no_null_witness :
    (∀ m ∈ [[("name", Val.str "Alice")],
            [("name", Val.str "B"), ("email", Val.str "e@x")]],
      ∀ kv ∈ m, kv.2 ≠ Val.pyNone)
    ∧ ("null" ∉ jsonTokens [[("name", Val.str "Alice")],
            [("name", Val.str "B"), ("email", Val.str "e@x")]]
       ∧ "None" ∉ jsonTokens [[("name", Val.str "Alice")],
            [("name", Val.str "B"), ("email", Val.str "e@x")]]) :=
  ⟨by decide,
   (write_to_json_ordered_no_null [[("name", Val.str "Alice")],
             [("name", Val.str "B"), ("email", Val.str "e@x")]]
      (by decide)).1⟩

/-- Claim C10.  For the empty record sequence the CSV serializer writes
exactly the header row of the ten field names and nothing else. -/
theorem write_to_csv_nil :
    write_to_csv [] = Except.ok
      [["name", "email", "phone", "bio_url", "img_url", "city", "state",
        "population", "city_site_url", "next_election"]] := rfl

end USMayors
